import Mathlib

/-!
# AutoSecScan — verification of the detection-heuristics and orchestration core

A shallow embedding of the AutoSecScan security scanner (Go) in Lean 4,
together with proofs of the specified properties.

The embedding follows the Go sources:
* `internal/models` — the data model (`TargetInfo`, `ScanResult`, `HeaderScan`,
  `TLSScan`, `Vulnerability`, ...);
* `internal/scanner/headers.go` — `ScanHeaders`, `isWeakHeader`, `extractMaxAge`;
* `internal/scanner/tls.go` — `ScanTLS`, `isWeakCipher`, `getTLSVersion`;
* `internal/scanner/sqli.go` — `ScanSQLi`, `detectSQLError`, `detectBehaviorChange`,
  `testPathInjection`;
* `internal/scanner/xss.go` — the per-parameter payload loop of `ScanXSS` and
  `checkPartialReflection`;
* the orchestrator `RunSecurityScan` and `CalculateRiskLevel`.

Network effects are abstracted into explicit response oracles: a probe is a
function from the data the code puts on the wire (payload, parameter name) to
the observed response (`none` models a failed request).  Everything else is
translated statement by statement from the Go source.
-/

namespace AutoSecScan

/-! ## String helpers (models of Go `strings` operations) -/

/-- Model of Go `strings.Contains sub s`: `sub` occurs as a contiguous
substring of `s`.  Character-level infix agrees with Go's byte-level search
because a valid UTF-8 encoding occurring as a byte substring of valid UTF-8
text always aligns on character boundaries. -/
def containsSubstr (s sub : String) : Bool :=
  decide (sub.data <:+: s.data)

/-- Model of Go `strings.ToLower` (character-wise lowercasing; the inputs the
scanner lowercases are ASCII, where `Char.toLower` agrees with Go). -/
def strToLower (s : String) : String :=
  String.mk (s.data.map Char.toLower)

/-- Model of Go `strings.HasPrefix`. -/
def strIsPrefixOf (pat s : String) : Bool :=
  decide (pat.data <+: s.data)

/-- Model of Go `strings.Join`. -/
def strJoin (sep : String) : List String → String
  | [] => ""
  | [x] => x
  | x :: xs => x ++ sep ++ strJoin sep xs

/-- Left-to-right, non-overlapping replacement of every occurrence of `pat`
by `rep`; the fuel argument (instantiated with the input length) makes the
recursion structural. -/
def replaceAllAux (pat rep : List Char) : Nat → List Char → List Char
  | _, [] => []
  | 0, l => l
  | fuel + 1, c :: rest =>
      if pat.isPrefixOf (c :: rest) then
        rep ++ replaceAllAux pat rep fuel (List.drop pat.length (c :: rest))
      else
        c :: replaceAllAux pat rep fuel rest

/-- Model of Go `strings.ReplaceAll` (for the non-empty patterns the scanner
uses). -/
def replaceAll (s pattern replacement : String) : String :=
  if pattern = "" then s
  else String.mk (replaceAllAux pattern.data replacement.data s.data.length s.data)

/-- Splitting on a (non-empty) separator, accumulator style; the fuel
argument (instantiated with the input length) makes the recursion
structural. -/
def splitOnAux (sep : List Char) : Nat → List Char → List Char → List (List Char)
  | _, acc, [] => [acc.reverse]
  | 0, acc, l => [acc.reverse ++ l]
  | fuel + 1, acc, c :: rest =>
      if sep.isPrefixOf (c :: rest) then
        acc.reverse :: splitOnAux sep fuel [] (List.drop sep.length (c :: rest))
      else
        splitOnAux sep fuel (c :: acc) rest

/-- Model of Go `strings.Split` (for the non-empty separators the scanner
uses). -/
def strSplitOn (s sep : String) : List String :=
  if sep = "" then [s]
  else (splitOnAux sep.data s.data.length [] s.data).map String.mk

/-- ASCII whitespace test used by `trimAsciiSpace` (models `unicode.IsSpace`
on the ASCII range, which is all that occurs in header values). -/
def isSpaceChar (c : Char) : Bool :=
  c = ' ' || c = '\t' || c = '\n' || c = '\r' || c = Char.ofNat 11 || c = Char.ofNat 12

/-- Model of Go `strings.TrimSpace` (restricted to ASCII whitespace). -/
def trimAsciiSpace (s : String) : String :=
  String.mk (((s.data.dropWhile isSpaceChar).reverse.dropWhile isSpaceChar).reverse)

/-- Longest prefix of decimal digits. -/
def leadingDigits : List Char → List Char
  | [] => []
  | c :: cs => if c.isDigit then c :: leadingDigits cs else []

/-- Numeric value of a digit string. -/
def digitsToNat (l : List Char) : Nat :=
  l.foldl (fun acc c => acc * 10 + (c.toNat - 48)) 0

/-- Model of `fmt.Sscanf(s, "%d", &n)`: skip leading whitespace, read an
optional sign and a run of digits; a failed parse leaves the integer at 0. -/
def parseLeadingInt (s : String) : Int :=
  match s.data.dropWhile isSpaceChar with
  | '-' :: rest =>
      let d := leadingDigits rest
      if d = [] then 0 else -(digitsToNat d : Int)
  | l =>
      let d := leadingDigits l
      if d = [] then 0 else (digitsToNat d : Int)

/-! ## Data model (`internal/models/models.go`) -/

/-- `models.TargetInfo`. -/
structure TargetInfo where
  url : String
  domain : String
  ip : String
  protocol : String
  port : Nat
deriving DecidableEq, Repr

/-- `models.SecurityHeader`. -/
structure SecurityHeader where
  name : String
  value : String
  status : String
  severity : String
  description : String
deriving DecidableEq, Repr

/-- `models.HeaderScan`.  The Go `Headers map[string]string` is modelled as an
association list. -/
structure HeaderScan where
  headers : List (String × String)
  missingHeaders : List SecurityHeader
  weakHeaders : List SecurityHeader
  presentHeaders : List SecurityHeader
  securityScore : Nat
deriving DecidableEq, Repr

/-- `models.CertificateInfo`.  The two `time.Time` fields are modelled as Unix
timestamps. -/
structure CertificateInfo where
  issuer : String
  subject : String
  validFrom : Int
  validTo : Int
  isExpired : Bool
  daysToExpiry : Int
deriving DecidableEq, Repr

/-- `models.TLSScan`. -/
structure TLSScan where
  protocol : String
  cipherSuite : String
  certificate : CertificateInfo
  vulnerabilities : List String
  score : Int
  isSecure : Bool
deriving DecidableEq, Repr

/-- `models.Port`. -/
structure Port where
  number : Nat
  protocol : String
  state : String
  service : String
  version : String
deriving DecidableEq, Repr

/-- `models.NmapScan` (`Duration` as nanoseconds). -/
structure NmapScan where
  openPorts : List Port
  duration : Int
deriving DecidableEq, Repr

/-- `models.Vulnerability` (`Type` is spelled `vtype`). -/
structure Vulnerability where
  vtype : String
  severity : String
  location : String
  payload : String
  evidence : String
  description : String
deriving DecidableEq, Repr

/-- `models.ScanResult`.  Pointer-typed sub-results are `Option`; the Go nil
slices `SQLiResults`/`XSSResults` have `[]` as their zero value.  Errors are
kept as their message strings. -/
structure ScanResult where
  target : TargetInfo
  startTime : Int
  endTime : Int
  nmapResults : Option NmapScan
  headerResults : Option HeaderScan
  tlsResults : Option TLSScan
  sqliResults : List Vulnerability
  xssResults : List Vulnerability
  errors : List String
  riskLevel : String
deriving DecidableEq, Repr

/-! ## Header analyzer (`internal/scanner/headers.go`) -/

/-- `scanner.SecurityHeaderDefinition`. -/
structure SecurityHeaderDefinition where
  name : String
  description : String
  severity : String
deriving DecidableEq, Repr

/-- `scanner.securityHeaders`: the fixed ordered definition list of seven
security headers. -/
def securityHeaders : List SecurityHeaderDefinition :=
  [ { name := "Strict-Transport-Security",
      description := "Enforces secure HTTPS connections",
      severity := "high" },
    { name := "Content-Security-Policy",
      description := "Prevents XSS and data injection attacks",
      severity := "high" },
    { name := "X-Frame-Options",
      description := "Prevents clickjacking attacks",
      severity := "medium" },
    { name := "X-Content-Type-Options",
      description := "Prevents MIME-type sniffing",
      severity := "medium" },
    { name := "Referrer-Policy",
      description := "Controls referrer information",
      severity := "low" },
    { name := "Permissions-Policy",
      description := "Controls browser features and APIs",
      severity := "medium" },
    { name := "X-XSS-Protection",
      description := "Legacy XSS filter (deprecated but still useful)",
      severity := "low" } ]

/-- The inner loop of `scanner.extractMaxAge`: find the first `;`-separated
part that (after trimming) starts with `max-age=` and parse its value. -/
def findMaxAge : List String → Int
  | [] => 0
  | part :: rest =>
      let part := trimAsciiSpace part
      if strIsPrefixOf "max-age=" part then parseLeadingInt (String.mk (part.data.drop 8))
      else findMaxAge rest

/-- `scanner.extractMaxAge`. -/
def extractMaxAge (value : String) : Int :=
  findMaxAge (strSplitOn value ";")

/-- `scanner.isWeakHeader`: the per-header weakness rules (the Go `switch`). -/
def isWeakHeader (name value : String) : Bool :=
  let lowerValue := strToLower value
  if name = "Strict-Transport-Security" then
    if !(containsSubstr lowerValue "max-age=") then true
    else if containsSubstr lowerValue "max-age=" then
      decide (extractMaxAge lowerValue < 15552000)
    else false
  else if name = "Content-Security-Policy" then
    if containsSubstr lowerValue "unsafe-inline" || containsSubstr lowerValue "unsafe-eval" then
      true
    else if containsSubstr lowerValue "*" && !(containsSubstr lowerValue "\x27*\x27") then true
    else false
  else if name = "X-Frame-Options" then
    containsSubstr lowerValue "allow"
  else if name = "X-XSS-Protection" then
    containsSubstr lowerValue "0"
  else false

/-- Model of the Go map access `resp.Header[headerDef.Name]`: the response
headers are an association list from canonical header name to value list. -/
def lookupHeader (resp : List (String × List String)) (name : String) : Option (List String) :=
  (resp.find? (fun kv => kv.1 = name)).map (·.2)

/-- One iteration of the `for _, headerDef := range securityHeaders` loop of
`scanner.ScanHeaders`: categorize one definition as missing / weak / present
and award 15 points for a present (strong) header. -/
def scanHeadersStep (resp : List (String × List String)) (scan : HeaderScan)
    (headerDef : SecurityHeaderDefinition) : HeaderScan :=
  match lookupHeader resp headerDef.name with
  | none =>
      { scan with missingHeaders := scan.missingHeaders ++
          [{ name := headerDef.name, value := "", status := "missing",
             severity := headerDef.severity, description := headerDef.description }] }
  | some value =>
      let headerValue := strJoin "; " value
      if isWeakHeader headerDef.name headerValue then
        { scan with weakHeaders := scan.weakHeaders ++
            [{ name := headerDef.name, value := headerValue, status := "weak",
               severity := headerDef.severity,
               description := headerDef.description ++ " (weak configuration)" }] }
      else
        let entry : SecurityHeader :=
          { name := headerDef.name, value := headerValue, status := "present",
            severity := "info", description := headerDef.description }
        { scan with
          presentHeaders := scan.presentHeaders ++ [entry]
          securityScore := scan.securityScore + 15 }

/-- `scanner.ScanHeaders`, pure part: the analysis of an already-obtained
response header map (the HEAD/GET probing is the network layer; the analysis
below is the rest of the function, statement by statement). -/
def ScanHeaders (resp : List (String × List String)) : HeaderScan :=
  let scan : HeaderScan :=
    { headers := resp.map (fun kv => (kv.1, strJoin "; " kv.2)),
      missingHeaders := [], weakHeaders := [], presentHeaders := [],
      securityScore := 0 }
  let scan := securityHeaders.foldl (scanHeadersStep resp) scan
  let maxScore := securityHeaders.length * 15
  let scan := if scan.securityScore > maxScore then { scan with securityScore := maxScore }
    else scan
  { scan with securityScore := scan.securityScore * 100 / maxScore }

/-- The three-way categorization implicit in `scanHeadersStep`. -/
inductive HeaderStatus | missing | weak | present
deriving DecidableEq, Repr

/-- Category assigned to one header definition by `ScanHeaders` on response
headers `resp`. -/
def headerCategory (resp : List (String × List String))
    (d : SecurityHeaderDefinition) : HeaderStatus :=
  match lookupHeader resp d.name with
  | none => .missing
  | some value =>
      if isWeakHeader d.name (strJoin "; " value) then .weak else .present

/-- The count of present-and-strong headers among the seven definitions. -/
def strongCount (resp : List (String × List String)) : Nat :=
  (securityHeaders.filter (fun d => headerCategory resp d == .present)).length

/-- The `SecurityHeader` entry appended for a missing definition. -/
def missingEntry (d : SecurityHeaderDefinition) : SecurityHeader :=
  { name := d.name, value := "", status := "missing",
    severity := d.severity, description := d.description }

/-- The `SecurityHeader` entry appended for a weak definition. -/
def weakEntry (resp : List (String × List String)) (d : SecurityHeaderDefinition) :
    SecurityHeader :=
  { name := d.name, value := strJoin "; " ((lookupHeader resp d.name).getD []),
    status := "weak", severity := d.severity,
    description := d.description ++ " (weak configuration)" }

/-- The `SecurityHeader` entry appended for a present (strong) definition. -/
def presentEntry (resp : List (String × List String)) (d : SecurityHeaderDefinition) :
    SecurityHeader :=
  { name := d.name, value := strJoin "; " ((lookupHeader resp d.name).getD []),
    status := "present", severity := "info", description := d.description }

/-! ## TLS analyzer (`internal/scanner/tls.go`) -/

/-- TLS protocol version constants (`crypto/tls`): `VersionSSL30 = 0x0300`,
`VersionTLS10 = 0x0301`, `VersionTLS11 = 0x0302`, `VersionTLS12 = 0x0303`,
`VersionTLS13 = 0x0304`. -/
def VersionSSL30 : Nat := 0x0300

def VersionTLS10 : Nat := 0x0301

def VersionTLS11 : Nat := 0x0302

def VersionTLS12 : Nat := 0x0303

def VersionTLS13 : Nat := 0x0304

/-- One hexadecimal digit. -/
def hexDigit (n : Nat) : Char :=
  if n < 10 then Char.ofNat (48 + n) else Char.ofNat (97 + (n - 10))

/-- Four-digit lowercase hex rendering, models `fmt.Sprintf("%04x", v)` for
`v < 0x10000`. -/
def toHex4 (n : Nat) : String :=
  String.mk [hexDigit (n / 4096 % 16), hexDigit (n / 256 % 16),
             hexDigit (n / 16 % 16), hexDigit (n % 16)]

/-- `scanner.getTLSVersion`: TLS version constant to display string. -/
def getTLSVersion (version : Nat) : String :=
  if version = VersionSSL30 then "SSL 3.0"
  else if version = VersionTLS10 then "TLS 1.0"
  else if version = VersionTLS11 then "TLS 1.1"
  else if version = VersionTLS12 then "TLS 1.2"
  else if version = VersionTLS13 then "TLS 1.3"
  else "Unknown (0x" ++ toHex4 version ++ ")"

/-- `scanner.isWeakCipher`: the fixed weak cipher-suite set (RC4, 3DES and
CBC-mode RSA-key-exchange suites), by their `crypto/tls` constant values. -/
def isWeakCipher (suite : Nat) : Bool :=
  suite = 0x0005   -- TLS_RSA_WITH_RC4_128_SHA
  || suite = 0x000a  -- TLS_RSA_WITH_3DES_EDE_CBC_SHA
  || suite = 0x002f  -- TLS_RSA_WITH_AES_128_CBC_SHA (CBC mode)
  || suite = 0x0035  -- TLS_RSA_WITH_AES_256_CBC_SHA (CBC mode)
  || suite = 0xc012  -- TLS_ECDHE_RSA_WITH_3DES_EDE_CBC_SHA
  || suite = 0xc011  -- TLS_ECDHE_RSA_WITH_RC4_128_SHA

/-- Model of `tls.CipherSuiteName` for the suites the scanner distinguishes
(display only; unknown values render as Go does, `fmt.Sprintf("0x%04X", id)`
up to case). -/
def cipherSuiteName (suite : Nat) : String :=
  if suite = 0x0005 then "TLS_RSA_WITH_RC4_128_SHA"
  else if suite = 0x000a then "TLS_RSA_WITH_3DES_EDE_CBC_SHA"
  else if suite = 0x002f then "TLS_RSA_WITH_AES_128_CBC_SHA"
  else if suite = 0x0035 then "TLS_RSA_WITH_AES_256_CBC_SHA"
  else if suite = 0xc012 then "TLS_ECDHE_RSA_WITH_3DES_EDE_CBC_SHA"
  else if suite = 0xc011 then "TLS_ECDHE_RSA_WITH_RC4_128_SHA"
  else "0x" ++ toHex4 suite

/-- The leaf certificate as observed by the analyzer.  `isExpired` and
`daysToExpiry` are the two clock-dependent observations the Go code derives
from `cert.NotAfter` and `time.Now()` (`IsExpired = now.After(NotAfter)`,
`DaysToExpiry = int(time.Until(NotAfter).Hours() / 24)`); they are inputs here
because the embedding has no clock. -/
structure PeerCert where
  issuer : String
  subject : String
  validFrom : Int
  validTo : Int
  isExpired : Bool
  daysToExpiry : Int
deriving DecidableEq, Repr

/-- The zero `models.CertificateInfo` (the certificate section is simply left
at its zero value when the peer chain is empty). -/
def zeroCertificate : CertificateInfo :=
  { issuer := "", subject := "", validFrom := 0, validTo := 0,
    isExpired := false, daysToExpiry := 0 }

/-- What a completed handshake reports: negotiated version and cipher suite,
the optional leaf certificate, and the free-text vulnerability strings added
by `testTLSVulnerabilities` (the three extra pinned-handshake probes). -/
structure HandshakeResult where
  version : Nat
  cipher : Nat
  cert : Option PeerCert
  extraVulns : List String
deriving DecidableEq, Repr

/-- The scoring body of `scanner.ScanTLS` (tls.go lines 44-112): build the
`TLSScan` from a completed handshake, statement by statement. -/
def scanTLSBody (version cipher : Nat) (cert : Option PeerCert)
    (extraVulns : List String) : TLSScan :=
  let scan : TLSScan :=
    { protocol := getTLSVersion version, cipherSuite := cipherSuiteName cipher,
      certificate := zeroCertificate, vulnerabilities := [],
      isSecure := true, score := 100 }
  -- Analyze certificate
  let scan :=
    match cert with
    | none => scan
    | some c =>
        let scan := { scan with certificate :=
          { issuer := c.issuer, subject := c.subject, validFrom := c.validFrom,
            validTo := c.validTo, isExpired := c.isExpired,
            daysToExpiry := c.daysToExpiry } }
        if c.isExpired then
          { scan with
            vulnerabilities := scan.vulnerabilities ++ ["Certificate has expired"]
            isSecure := false
            score := scan.score - 50 }
        else if c.daysToExpiry < 30 then
          { scan with
            vulnerabilities := scan.vulnerabilities ++
              ["Certificate expires soon (" ++ toString c.daysToExpiry ++ " days)"]
            score := scan.score - 10 }
        else scan
  -- Check TLS version
  let scan :=
    if version < VersionTLS12 then
      { scan with
        vulnerabilities := scan.vulnerabilities ++
          ["Outdated TLS version: " ++ scan.protocol ++ " (TLS 1.2+ recommended)"]
        isSecure := false
        score := scan.score - 30 }
    else if version = VersionTLS12 then
      { scan with
        vulnerabilities := scan.vulnerabilities ++
          ["TLS 1.2 is acceptable but TLS 1.3 is recommended"]
        score := scan.score - 5 }
    else scan
  -- Check cipher suite security
  let scan :=
    if isWeakCipher cipher then
      { scan with
        vulnerabilities := scan.vulnerabilities ++
          ["Weak cipher suite: " ++ scan.cipherSuite]
        score := scan.score - 20
        isSecure := false }
    else scan
  -- Test for common vulnerabilities
  let scan := { scan with vulnerabilities := scan.vulnerabilities ++ extraVulns }
  let scan :=
    if extraVulns.length > 0 then
      { scan with score := scan.score - 10 * extraVulns.length, isSecure := false }
    else scan
  -- Ensure score doesn't go negative
  if scan.score < 0 then { scan with score := 0 } else scan

/-- `scanner.ScanTLS`: the non-HTTPS early return, the handshake (abstracted:
`handshake` is what `tls.DialWithDialer` produced, `.error` when the
connection failed), then the scoring body. -/
def ScanTLS (target : TargetInfo) (handshake : Except String HandshakeResult) :
    Except String TLSScan :=
  -- Only scan HTTPS targets
  if target.protocol ≠ "https" then
    .ok { protocol := "", cipherSuite := "", certificate := zeroCertificate,
          vulnerabilities := ["Target is not using HTTPS"],
          score := 0, isSecure := false }
  else
    match handshake with
    | .error e => .error ("TLS connection failed: " ++ e)
    | .ok h => .ok (scanTLSBody h.version h.cipher h.cert h.extraVulns)

/-! ## SQL-injection analyzer (`internal/scanner/sqli.go`)

The network layer is abstracted into response oracles: `respond paramName
payload` is the response to the request with `paramName` set to `payload`
(`none` models a failed request, which the Go code logs and skips). -/

/-- An HTTP response as the injection analyzers observe it. -/
structure Resp where
  status : Nat
  body : String
deriving DecidableEq, Repr

/-- `scanner.sqliPayloads` (payload, description).  `\x27` is the single-quote
character. -/
def sqliPayloads : List (String × String) :=
  [ ("\x27", "Single quote test"),
    ("\x27 OR \x271\x27=\x271", "Classic OR bypass"),
    ("\x27 OR \x271\x27=\x271\x27 --", "OR bypass with comment"),
    ("\x27 OR 1=1 --", "Numeric OR bypass"),
    ("admin\x27 --", "Comment injection"),
    ("\x27 UNION SELECT NULL--", "UNION injection test"),
    ("1\x27 AND \x271\x27=\x272", "False condition test"),
    ("\x27; DROP TABLE users--", "Destructive command test"),
    ("\x27 OR \x27x\x27=\x27x", "Alternative OR bypass"),
    ("1\x27 ORDER BY 1--", "ORDER BY enumeration") ]

/-- `scanner.sqlErrorPatterns`: database-error signature substrings (matched
against the lowercased body). -/
def sqlErrorPatterns : List String :=
  [ "sql syntax",
    "mysql_fetch",
    "mysql_num_rows",
    "mysqli",
    "sqlexception",
    "postgresql",
    "sqlite",
    "oracle",
    "odbc",
    "mssql",
    "jdbc",
    "ora-",
    "pg_query",
    "pg_exec",
    "syntax error",
    "unterminated quoted string",
    "unclosed quotation mark",
    "error in your sql syntax",
    "you have an error in your sql" ]

/-- `scanner.detectSQLError`: first matching signature, or `""`. -/
def detectSQLError (body : String) : String :=
  (sqlErrorPatterns.find? (fun pattern => containsSubstr body pattern)).getD ""

/-- `scanner.detectBehaviorChange`. -/
def detectBehaviorChange (baselineStatus testStatus baselineLength testLength : Nat) : Bool :=
  -- Status code changed
  if baselineStatus ≠ testStatus then true
  else
    -- Go computes float64(testLength-baselineLength) / float64(baselineLength)
    -- and compares it against 0.1 / -0.1.  Exact rational arithmetic stands in
    -- for float64 (the two agree for all realistic body lengths); a zero
    -- baseline gives ±Inf / NaN in Go, mirrored by the explicit zero case.
    if baselineLength = 0 then testLength ≠ 0
    else
      let lengthDiff : ℚ := ((testLength : ℚ) - (baselineLength : ℚ)) / (baselineLength : ℚ)
      decide (lengthDiff > 1/10) || decide (lengthDiff < -(1/10))

/-- The body of the per-payload iteration of `scanner.ScanSQLi` (sqli.go lines
117-148): the error-signature check, then the behavior-change heuristic.
`resp.body.utf8ByteSize` models Go `len(body)` (bytes). -/
def sqliCheckPayload (baselineStatus baselineLength : Nat)
    (paramName payload description : String) (resp : Resp) : Option Vulnerability :=
  let bodyStr := strToLower resp.body
  let sqlError := detectSQLError bodyStr
  if sqlError ≠ "" then
    some { vtype := "sqli", severity := "critical",
           location := "Parameter: " ++ paramName, payload := payload,
           evidence := "SQL error detected: " ++ sqlError,
           description := description ++ " - SQL error exposed" }
  else if detectBehaviorChange baselineStatus resp.status baselineLength resp.body.utf8ByteSize then
    some { vtype := "sqli", severity := "high",
           location := "Parameter: " ++ paramName, payload := payload,
           evidence := "Response behavior changed: baseline=" ++ toString baselineLength ++
             " bytes, test=" ++ toString resp.body.utf8ByteSize ++ " bytes",
           description := description ++ " - Response indicates potential SQL injection" }
  else none

/-- The per-parameter payload loop of `scanner.ScanSQLi` (sqli.go lines
105-152): test payloads in order, record at most one finding and `break` as
soon as one is recorded; a failed request (`respond _ = none`) is skipped.
Returns the findings (at most one) and the list of payloads actually sent. -/
def scanParamSQLi (baselineStatus baselineLength : Nat) (paramName : String)
    (respond : String → Option Resp) :
    List (String × String) → List Vulnerability × List String
  | [] => ([], [])
  | (payload, description) :: rest =>
      match respond payload with
      | none =>
          let r := scanParamSQLi baselineStatus baselineLength paramName respond rest
          (r.1, payload :: r.2)
      | some resp =>
          match sqliCheckPayload baselineStatus baselineLength paramName payload description resp with
          | some v => ([v], [payload])
          | none =>
              let r := scanParamSQLi baselineStatus baselineLength paramName respond rest
              (r.1, payload :: r.2)

/-- The two path payloads of `scanner.testPathInjection`. -/
def pathPayloads : List String :=
  ["\x27", "\x27 OR \x271\x27=\x271"]

/-- `scanner.testPathInjection`: probe payloads appended as a path segment,
`break` on the first error-signature hit (no behavior-change check here). -/
def testPathInjection (respond : String → Option Resp) : List String → List Vulnerability
  | [] => []
  | payload :: rest =>
      match respond payload with
      | none => testPathInjection respond rest
      | some resp =>
          let bodyStr := strToLower resp.body
          let sqlError := detectSQLError bodyStr
          if sqlError ≠ "" then
            [{ vtype := "sqli", severity := "critical", location := "URL Path",
               payload := payload, evidence := "SQL error detected: " ++ sqlError,
               description := "SQL injection in URL path" }]
          else testPathInjection respond rest

/-- `scanner.ScanSQLi` after the baseline fetch succeeded: `params` are the
query-parameter names in iteration order (or the fallback set), `respond` the
network oracle, and `pathProbe` is `some` exactly when `len(parsedURL.Path) >
1` (the path-injection probe runs). -/
def ScanSQLi (baselineStatus baselineLength : Nat) (params : List String)
    (respond : String → String → Option Resp)
    (pathProbe : Option (String → Option Resp)) : List Vulnerability :=
  let vulnerabilities := params.foldl
    (fun acc paramName =>
      acc ++ (scanParamSQLi baselineStatus baselineLength paramName
        (respond paramName) sqliPayloads).1) []
  match pathProbe with
  | none => vulnerabilities
  | some pr => vulnerabilities ++ testPathInjection pr pathPayloads

/-! ## XSS analyzer (`internal/scanner/xss.go`) -/

/-- `scanner.xssPayloads` (payload, pattern, description); each `pattern` is
the pre-lowercased form of its `payload`. -/
def xssPayloads : List (String × String × String) :=
  [ ("<script>alert(\x27XSS\x27)</script>",
     "<script>alert(\x27xss\x27)</script>",
     "Basic script injection"),
    ("<img src=x onerror=alert(\x27XSS\x27)>",
     "<img src=x onerror=alert(\x27xss\x27)>",
     "Image tag with onerror handler"),
    ("<svg/onload=alert(\x27XSS\x27)>",
     "<svg/onload=alert(\x27xss\x27)>",
     "SVG with onload handler"),
    ("\"><script>alert(\x27XSS\x27)</script>",
     "\"><script>alert(\x27xss\x27)</script>",
     "Breaking out of attribute"),
    ("javascript:alert(\x27XSS\x27)",
     "javascript:alert(\x27xss\x27)",
     "JavaScript protocol handler"),
    ("<iframe src=javascript:alert(\x27XSS\x27)>",
     "<iframe src=javascript:alert(\x27xss\x27)>",
     "Iframe with JavaScript URL"),
    ("<body onload=alert(\x27XSS\x27)>",
     "<body onload=alert(\x27xss\x27)>",
     "Body tag with onload"),
    ("<input onfocus=alert(\x27XSS\x27) autofocus>",
     "<input onfocus=alert(\x27xss\x27) autofocus>",
     "Input with autofocus"),
    ("<marquee onstart=alert(\x27XSS\x27)>",
     "<marquee onstart=alert(\x27xss\x27)>",
     "Marquee tag exploitation"),
    ("<details open ontoggle=alert(\x27XSS\x27)>",
     "<details open ontoggle=alert(\x27xss\x27)>",
     "Details tag with ontoggle") ]

/-- `scanner.checkPartialReflection`: strip angle brackets and quotes from the
payload; if the residual "alert" / "xss" still appears in the (lowercased)
body, the input is considered partially reflected. -/
def checkPartialReflection (body payload : String) : Bool :=
  let cleanPayload := replaceAll payload "<" ""
  let cleanPayload := replaceAll cleanPayload ">" ""
  let cleanPayload := replaceAll cleanPayload "\x27" ""
  let cleanPayload := replaceAll cleanPayload "\"" ""
  let cleanPayload := strToLower cleanPayload
  if containsSubstr cleanPayload "alert" && containsSubstr body "alert" then true
  else if containsSubstr cleanPayload "xss" && containsSubstr body "xss" then true
  else false

/-- The body of the per-payload iteration of `scanner.ScanXSS` (xss.go lines
126-156): exact unescaped reflection (high), then the partial-reflection
heuristic (medium). -/
def xssCheckPayload (paramName payload pattern description : String) (resp : Resp) :
    Option Vulnerability :=
  let bodyStr := strToLower resp.body
  if containsSubstr bodyStr pattern then
    some { vtype := "xss", severity := "high",
           location := "Parameter: " ++ paramName, payload := payload,
           evidence := "Payload reflected unescaped in response",
           description := description ++ " - Payload found in response without proper encoding" }
  else if checkPartialReflection bodyStr payload then
    some { vtype := "xss", severity := "medium",
           location := "Parameter: " ++ paramName, payload := payload,
           evidence := "Payload partially reflected, may be bypassable",
           description := description ++ " - Input reflected with partial encoding" }
  else none

/-- The per-parameter payload loop of `scanner.ScanXSS` (xss.go lines
111-161): same first-match short-circuit shape as the SQLi loop. -/
def scanParamXSS (paramName : String) (respond : String → Option Resp) :
    List (String × String × String) → List Vulnerability × List String
  | [] => ([], [])
  | (payload, pattern, description) :: rest =>
      match respond payload with
      | none =>
          let r := scanParamXSS paramName respond rest
          (r.1, payload :: r.2)
      | some resp =>
          match xssCheckPayload paramName payload pattern description resp with
          | some v => ([v], [payload])
          | none =>
              let r := scanParamXSS paramName respond rest
              (r.1, payload :: r.2)

/-- Model of Go `html.EscapeString` (used only to build the entity-encoding
test scenario): escapes `&`, `\x27`, `<`, `>`, `"`. -/
def htmlEscape (s : String) : String :=
  replaceAll (replaceAll (replaceAll (replaceAll (replaceAll s "&" "&amp;")
    "\x27" "&#39;") "<" "&lt;") ">" "&gt;") "\"" "&#34;"

/-! ## Risk classification and orchestration (`RunSecurityScan`,
`CalculateRiskLevel`) -/

/-- The severity-counting loops of `CalculateRiskLevel` (the Go `switch` over
`vuln.Severity`), threaded over one vulnerability list. -/
def countVulnSeverities (counts : Nat × Nat × Nat) (vulns : List Vulnerability) :
    Nat × Nat × Nat :=
  vulns.foldl
    (fun counts v =>
      if v.severity = "critical" then (counts.1 + 1, counts.2.1, counts.2.2)
      else if v.severity = "high" then (counts.1, counts.2.1 + 1, counts.2.2)
      else if v.severity = "medium" then (counts.1, counts.2.1, counts.2.2 + 1)
      else counts)
    counts

/-- `report.CalculateRiskLevel`: count severities over the SQLi and XSS lists,
count an insecure TLS result as one high and a header score below 50 as one
medium, then the precedence cascade. -/
def CalculateRiskLevel (result : ScanResult) : String :=
  let counts := countVulnSeverities (countVulnSeverities (0, 0, 0) result.sqliResults)
    result.xssResults
  let criticalCount := counts.1
  -- Check TLS security
  let highCount := counts.2.1 +
    (match result.tlsResults with
     | some t => if !t.isSecure then 1 else 0
     | none => 0)
  -- Check header security
  let mediumCount := counts.2.2 +
    (match result.headerResults with
     | some h => if h.securityScore < 50 then 1 else 0
     | none => 0)
  -- Determine risk level
  if criticalCount > 0 then "CRITICAL"
  else if highCount > 0 then "HIGH"
  else if mediumCount > 0 then "MEDIUM"
  else "LOW"

/-- The five concurrent units `RunSecurityScan` can launch. -/
inductive ScanUnit
  | headers
  | tls
  | sqli
  | xss
  | nmap
deriving DecidableEq, Repr

/-- The skip flags of `report.ScanOptions` (the timeout is modelled by the
`timedOut` flag of `RunSecurityScan`, the progress reporter by
`progressPercents`). -/
structure ScanOptions where
  skipNmap : Bool
  skipHeaders : Bool
  skipTLS : Bool
  skipSQLi : Bool
  skipXSS : Bool
deriving DecidableEq, Repr

/-- What each analyzer call would return (`.error` is a failure whose message
is appended to `result.Errors`). -/
structure ScanOutcomes where
  headers : Except String HeaderScan
  tls : Except String TLSScan
  sqli : Except String (List Vulnerability)
  xss : Except String (List Vulnerability)
  nmap : Except String NmapScan

/-- The launch-time enabled/disabled decision of `RunSecurityScan` (html.go
lines 746-760), in the order the units are counted; the nmap unit is
additionally gated on `scanner.IsNmapInstalled()`. -/
def enabledUnits (o : ScanOptions) (nmapInstalled : Bool) : List ScanUnit :=
  (if !o.skipHeaders then [ScanUnit.headers] else []) ++
  (if !o.skipTLS then [ScanUnit.tls] else []) ++
  (if !o.skipSQLi then [ScanUnit.sqli] else []) ++
  (if !o.skipXSS then [ScanUnit.xss] else []) ++
  (if !o.skipNmap && nmapInstalled then [ScanUnit.nmap] else [])

/-- One unit's critical section under the shared mutex: assign the sub-result
on success, append the error on failure. -/
def applyWrite (out : ScanOutcomes) (r : ScanResult) (u : ScanUnit) : ScanResult :=
  match u with
  | .headers =>
      match out.headers with
      | .error e => { r with errors := r.errors ++ [e] }
      | .ok h => { r with headerResults := some h }
  | .tls =>
      match out.tls with
      | .error e => { r with errors := r.errors ++ [e] }
      | .ok t => { r with tlsResults := some t }
  | .sqli =>
      match out.sqli with
      | .error e => { r with errors := r.errors ++ [e] }
      | .ok v => { r with sqliResults := v }
  | .xss =>
      match out.xss with
      | .error e => { r with errors := r.errors ++ [e] }
      | .ok v => { r with xssResults := v }
  | .nmap =>
      match out.nmap with
      | .error e => { r with errors := r.errors ++ [e] }
      | .ok n => { r with nmapResults := some n }

/-- The `ScanResult` literal created at orchestration start (html.go lines
725-729): target and start time set, `Errors` the empty list, every other
field at its zero value. -/
def initResult (target : TargetInfo) (startTime : Int) : ScanResult :=
  { target := target, startTime := startTime, endTime := 0,
    nmapResults := none, headerResults := none, tlsResults := none,
    sqliResults := [], xssResults := [], errors := [], riskLevel := "" }

/-- `report.RunSecurityScan` (html.go lines 719-920) as a pure function of the
nondeterminism the goroutine scheduler resolves: `completed` is the order in
which units took the lock and wrote before finalization, and `timedOut`
selects the `ctx.Done()` branch of the final `select` (the deadline elapsed
before every unit reported).  Finalization then appends the synthetic timeout
error, sets `EndTime` and derives `RiskLevel`; the function's own error result
is always `nil`. -/
def RunSecurityScan (target : TargetInfo) (startTime endTime : Int)
    (out : ScanOutcomes) (completed : List ScanUnit) (timedOut : Bool) :
    ScanResult × Option String :=
  let result := initResult target startTime
  let result := completed.foldl (applyWrite out) result
  let result :=
    if timedOut then { result with errors := result.errors ++ ["scan timeout exceeded"] }
    else result
  let result := { result with endTime := endTime }
  let result := { result with riskLevel := CalculateRiskLevel result }
  (result, none)

/-- The progress percentages reported by the `updateProgress` closure: the
i-th completing unit increments `completedScans` under the lock and reports
`(completedScans * 100) / totalScans`, with `totalScans` fixed at launch. -/
def progressPercents (totalScans : Nat) (completed : List ScanUnit) : List Nat :=
  (List.range completed.length).map (fun i => ((i + 1) * 100) / totalScans)

/-- The error message a unit would contribute, if any. -/
def unitError (out : ScanOutcomes) : ScanUnit → Option String
  | .headers => match out.headers with | .error e => some e | .ok _ => none
  | .tls => match out.tls with | .error e => some e | .ok _ => none
  | .sqli => match out.sqli with | .error e => some e | .ok _ => none
  | .xss => match out.xss with | .error e => some e | .ok _ => none
  | .nmap => match out.nmap with | .error e => some e | .ok _ => none

/-- A unit's result field is still at its zero value. -/
def fieldIsZero (r : ScanResult) : ScanUnit → Prop
  | .headers => r.headerResults = none
  | .tls => r.tlsResults = none
  | .sqli => r.sqliResults = []
  | .xss => r.xssResults = []
  | .nmap => r.nmapResults = none

/-- A unit's successful output, if any, has been kept in the result. -/
def fieldPopulated (out : ScanOutcomes) (r : ScanResult) : ScanUnit → Prop
  | .headers => ∀ h, out.headers = .ok h → r.headerResults = some h
  | .tls => ∀ t, out.tls = .ok t → r.tlsResults = some t
  | .sqli => ∀ v, out.sqli = .ok v → r.sqliResults = v
  | .xss => ∀ v, out.xss = .ok v → r.xssResults = v
  | .nmap => ∀ n, out.nmap = .ok n → r.nmapResults = some n

/-! Spec-side predicates for the risk-classification claim. -/

/-- Some SQLi or XSS finding has severity `critical`. -/
def HasCriticalVuln (r : ScanResult) : Prop :=
  ∃ v, (v ∈ r.sqliResults ∨ v ∈ r.xssResults) ∧ v.severity = "critical"

/-- Some SQLi or XSS finding has severity `high`. -/
def HasHighVuln (r : ScanResult) : Prop :=
  ∃ v, (v ∈ r.sqliResults ∨ v ∈ r.xssResults) ∧ v.severity = "high"

/-- Some SQLi or XSS finding has severity `medium`. -/
def HasMediumVuln (r : ScanResult) : Prop :=
  ∃ v, (v ∈ r.sqliResults ∨ v ∈ r.xssResults) ∧ v.severity = "medium"

/-- The TLS result is present and not secure (counted as one high). -/
def TLSInsecure (r : ScanResult) : Prop :=
  ∃ t, r.tlsResults = some t ∧ t.isSecure = false

/-- The header result is present with security score below 50 (counted as one
medium). -/
def HeaderScoreLow (r : ScanResult) : Prop :=
  ∃ h, r.headerResults = some h ∧ h.securityScore < 50

/-- The net outcome of one payload attempt for one parameter: `none` when the
request failed (logged and skipped) or when neither check fired. -/
def payloadOutcome (baselineStatus baselineLength : Nat) (paramName : String)
    (respond : String → Option Resp) (payload description : String) : Option Vulnerability :=
  match respond payload with
  | none => none
  | some resp => sqliCheckPayload baselineStatus baselineLength paramName payload description resp

/-- The findings a result list attributes to one query parameter. -/
def findingsForParam (p : String) (vulns : List Vulnerability) : List Vulnerability :=
  vulns.filter (fun v => v.location == "Parameter: " ++ p)

/-! Concrete inputs used by witnesses and counterexamples. -/

/-- A response carrying exactly two strong security headers. -/
def hdrsTwoStrong : List (String × List String) :=
  [("X-Content-Type-Options", ["nosniff"]), ("Referrer-Policy", ["no-referrer"])]

/-- The first header definition (HSTS). -/
def hstsDef : SecurityHeaderDefinition :=
  { name := "Strict-Transport-Security",
    description := "Enforces secure HTTPS connections",
    severity := "high" }

/-- A response oracle whose server leaks a MySQL error on a single-quote
payload and answers everything else unremarkably. -/
def sqliOracle : String → String → Option Resp :=
  fun _ payload =>
    if payload = "\x27" then
      some { status := 200, body := "You have an error in your SQL syntax" }
    else some { status := 200, body := "ok" }

/-- A 40-byte response with an unremarkable body (four times the 10-byte
baseline used in the behavior-change witness). -/
def respLong : Resp :=
  { status := 200, body := String.mk (List.replicate 40 'a') }

/-- A handler that HTML-entity-encodes the query value before reflecting it. -/
def xssEncodingOracle : String → Option Resp :=
  fun pay => some { status := 200, body := "Search results for: " ++ htmlEscape pay }


/-- A concrete HTTPS target. -/
def tgt0 : TargetInfo :=
  { url := "https://example.com", domain := "example.com", ip := "93.184.216.34",
    protocol := "https", port := 443 }

def allScanOptions : ScanOptions :=
  { skipNmap := false, skipHeaders := false, skipTLS := false,
    skipSQLi := false, skipXSS := false }

def allSkipOptions : ScanOptions :=
  { skipNmap := true, skipHeaders := true, skipTLS := true,
    skipSQLi := true, skipXSS := true }

def out0 : ScanOutcomes :=
  { headers := .error "failed to connect: no route to host",
    tls := .ok { protocol := "TLS 1.3", cipherSuite := "TLS_AES_128_GCM_SHA256",
                 certificate := zeroCertificate, vulnerabilities := [], score := 95,
                 isSecure := true },
    sqli := .ok [],
    xss := .ok [],
    nmap := .ok { openPorts := [], duration := 0 } }

def allUnits : List ScanUnit :=
  [ScanUnit.headers, ScanUnit.tls, ScanUnit.sqli, ScanUnit.xss, ScanUnit.nmap]


/-!
# Theorems
-/

/-! ## Header analyzer lemmas -/

theorem scanHeadersStep_eq (resp : List (String × List String)) (s : HeaderScan)
    (d : SecurityHeaderDefinition) :
    scanHeadersStep resp s d =
      match headerCategory resp d with
      | .missing => { s with missingHeaders := s.missingHeaders ++ [missingEntry d] }
      | .weak => { s with weakHeaders := s.weakHeaders ++ [weakEntry resp d] }
      | .present =>
          { s with
            presentHeaders := s.presentHeaders ++ [presentEntry resp d]
            securityScore := s.securityScore + 15 } := by
  unfold scanHeadersStep headerCategory missingEntry weakEntry presentEntry
  cases h : lookupHeader resp d.name with
  | none => simp
  | some value =>
      simp only [h, Option.getD_some]
      split <;> simp

theorem foldl_step_missing (resp : List (String × List String))
    (l : List SecurityHeaderDefinition) (s : HeaderScan) :
    (l.foldl (scanHeadersStep resp) s).missingHeaders =
      s.missingHeaders ++
        (l.filter fun d => headerCategory resp d == .missing).map missingEntry := by
  induction l generalizing s with
  | nil => simp
  | cons d l ih =>
      simp only [List.foldl_cons, List.filter_cons]
      rw [scanHeadersStep_eq]
      cases h : headerCategory resp d <;> simp [h, ih]

theorem foldl_step_weak (resp : List (String × List String))
    (l : List SecurityHeaderDefinition) (s : HeaderScan) :
    (l.foldl (scanHeadersStep resp) s).weakHeaders =
      s.weakHeaders ++
        (l.filter fun d => headerCategory resp d == .weak).map (weakEntry resp) := by
  induction l generalizing s with
  | nil => simp
  | cons d l ih =>
      simp only [List.foldl_cons, List.filter_cons]
      rw [scanHeadersStep_eq]
      cases h : headerCategory resp d <;> simp [h, ih]

theorem foldl_step_present (resp : List (String × List String))
    (l : List SecurityHeaderDefinition) (s : HeaderScan) :
    (l.foldl (scanHeadersStep resp) s).presentHeaders =
      s.presentHeaders ++
        (l.filter fun d => headerCategory resp d == .present).map (presentEntry resp) := by
  induction l generalizing s with
  | nil => simp
  | cons d l ih =>
      simp only [List.foldl_cons, List.filter_cons]
      rw [scanHeadersStep_eq]
      cases h : headerCategory resp d <;> simp [h, ih]

theorem foldl_step_score (resp : List (String × List String))
    (l : List SecurityHeaderDefinition) (s : HeaderScan) :
    (l.foldl (scanHeadersStep resp) s).securityScore =
      s.securityScore + 15 * l.countP (fun d => headerCategory resp d == .present) := by
  induction l generalizing s with
  | nil => simp
  | cons d l ih =>
      simp only [List.foldl_cons, List.countP_cons]
      rw [scanHeadersStep_eq]
      cases h : headerCategory resp d <;> simp [h, ih] <;> omega

theorem ScanHeaders_missingHeaders (resp : List (String × List String)) :
    (ScanHeaders resp).missingHeaders =
      (securityHeaders.filter fun d => headerCategory resp d == .missing).map missingEntry := by
  unfold ScanHeaders
  simp only []
  split <;> simp [foldl_step_missing]

theorem ScanHeaders_weakHeaders (resp : List (String × List String)) :
    (ScanHeaders resp).weakHeaders =
      (securityHeaders.filter fun d => headerCategory resp d == .weak).map (weakEntry resp) := by
  unfold ScanHeaders
  simp only []
  split <;> simp [foldl_step_weak]

theorem ScanHeaders_presentHeaders (resp : List (String × List String)) :
    (ScanHeaders resp).presentHeaders =
      (securityHeaders.filter fun d => headerCategory resp d == .present).map (presentEntry resp) := by
  unfold ScanHeaders
  simp only []
  split <;> simp [foldl_step_present]

theorem ScanHeaders_securityScore (resp : List (String × List String)) :
    (ScanHeaders resp).securityScore = 100 * strongCount resp / 7 := by
  have hc : securityHeaders.countP (fun d => headerCategory resp d == .present) =
      strongCount resp := by
    rw [strongCount, List.countP_eq_length_filter]
  have hle : strongCount resp ≤ 7 := by
    rw [← hc]
    exact le_trans (List.countP_le_length _) (by decide)
  unfold ScanHeaders
  simp only []
  rw [if_neg (by
    rw [foldl_step_score, hc]
    show ¬ (0 + 15 * strongCount resp > securityHeaders.length * 15)
    have h7 : securityHeaders.length = 7 := rfl
    omega)]
  simp only [foldl_step_score, hc]
  have h7 : securityHeaders.length = 7 := rfl
  rw [h7]
  rw [show (0 + 15 * strongCount resp) * 100 = 15 * (100 * strongCount resp) by ring]
  rw [show 7 * 15 = 15 * 7 by ring]
  exact Nat.mul_div_mul_left (100 * strongCount resp) 7 (by norm_num)

/-! ## Category partition lemmas -/

theorem category_filter_length_sum (resp : List (String × List String))
    (l : List SecurityHeaderDefinition) :
    (l.filter fun d => headerCategory resp d == .missing).length +
      (l.filter fun d => headerCategory resp d == .weak).length +
      (l.filter fun d => headerCategory resp d == .present).length = l.length := by
  induction l with
  | nil => simp
  | cons d l ih =>
      simp only [List.filter_cons]
      cases h : headerCategory resp d <;> simp [h] <;> omega

theorem countP_category_split (resp : List (String × List String))
    (q : SecurityHeaderDefinition → Bool) (l : List SecurityHeaderDefinition) :
    l.countP (fun d => headerCategory resp d == .missing && q d) +
      l.countP (fun d => headerCategory resp d == .weak && q d) +
      l.countP (fun d => headerCategory resp d == .present && q d) = l.countP q := by
  induction l with
  | nil => simp
  | cons d l ih =>
      simp only [List.countP_cons]
      cases h : headerCategory resp d <;> cases hq : q d <;> simp [h, hq] <;> omega

theorem countP_name_securityHeaders (d : SecurityHeaderDefinition)
    (hd : d ∈ securityHeaders) :
    securityHeaders.countP (fun e => e.name == d.name) = 1 := by
  fin_cases hd <;> decide

/-! ## C3: the three header lists partition the definition set -/

/-- C3: for every response header map, the header analyzer's three output
lists (missing, weak, present) partition the fixed seven-header definition
set exactly: the three lengths sum to seven and each defined header name
occurs exactly once across the three lists. -/
theorem scanHeaders_partition (resp : List (String × List String)) :
    ((ScanHeaders resp).missingHeaders.length + (ScanHeaders resp).weakHeaders.length +
        (ScanHeaders resp).presentHeaders.length = 7)
  ∧ ∀ d ∈ securityHeaders,
      ((ScanHeaders resp).missingHeaders ++ (ScanHeaders resp).weakHeaders ++
        (ScanHeaders resp).presentHeaders).countP (fun sh => sh.name == d.name) = 1 := by
  constructor
  · rw [ScanHeaders_missingHeaders, ScanHeaders_weakHeaders, ScanHeaders_presentHeaders]
    simp only [List.length_map]
    exact category_filter_length_sum resp securityHeaders
  · intro d hd
    rw [ScanHeaders_missingHeaders, ScanHeaders_weakHeaders, ScanHeaders_presentHeaders]
    rw [List.countP_append, List.countP_append]
    have hm : ∀ (c : HeaderStatus) (f : SecurityHeaderDefinition → SecurityHeader),
        (∀ e, (f e).name = e.name) →
        ((securityHeaders.filter fun e => headerCategory resp e == c).map f).countP
          (fun sh => sh.name == d.name) =
        securityHeaders.countP (fun e => headerCategory resp e == c && e.name == d.name) := by
      intro c f hf
      rw [List.countP_map, List.countP_filter]
      apply List.countP_congr
      intro e _
      simp [Function.comp, hf e, Bool.and_comm]
    rw [hm .missing missingEntry (fun e => rfl),
        hm .weak (weakEntry resp) (fun e => rfl),
        hm .present (presentEntry resp) (fun e => rfl)]
    rw [countP_category_split resp (fun e => e.name == d.name) securityHeaders]
    exact countP_name_securityHeaders d hd

/-- C3 witness: the partition property evaluated at a concrete response. -/
theorem scanHeaders_partition_witness :
    ((ScanHeaders hdrsTwoStrong).missingHeaders ++ (ScanHeaders hdrsTwoStrong).weakHeaders ++
      (ScanHeaders hdrsTwoStrong).presentHeaders).countP
        (fun sh => sh.name == hstsDef.name) = 1 :=
  (scanHeaders_partition hdrsTwoStrong).2 hstsDef (by decide)

/-! ## C4: the header score formula -/

/-- C4 (amended): the header security score equals
`⌊100 * countPresentStrong / 7⌋` (truncating integer division, not rounding
to nearest); present-but-weak headers do not count as strong; the score is
monotonic in the strong count, with score 100 at 7 strong, 0 at none, and 28
at exactly 2 of 7. -/
theorem headerScore_spec (resp resp₂ : List (String × List String)) :
    (ScanHeaders resp).securityScore = 100 * strongCount resp / 7
  ∧ (strongCount resp ≤ strongCount resp₂ →
      (ScanHeaders resp).securityScore ≤ (ScanHeaders resp₂).securityScore)
  ∧ (strongCount resp = 7 → (ScanHeaders resp).securityScore = 100)
  ∧ (strongCount resp = 0 → (ScanHeaders resp).securityScore = 0)
  ∧ (strongCount resp = 2 → (ScanHeaders resp).securityScore = 28) := by
  refine ⟨ScanHeaders_securityScore resp, ?_, ?_, ?_, ?_⟩
  · intro h
    rw [ScanHeaders_securityScore, ScanHeaders_securityScore]
    exact Nat.div_le_div_right (Nat.mul_le_mul_left 100 h)
  · intro h; rw [ScanHeaders_securityScore, h]
  · intro h; rw [ScanHeaders_securityScore, h]
  · intro h; rw [ScanHeaders_securityScore, h]

/-- C4 witness: the score formula evaluated at concrete responses
(0 strong ⇒ 0, 2 strong ⇒ 28, monotonicity between the two). -/
theorem headerScore_spec_witness :
    (ScanHeaders []).securityScore = 0
  ∧ (ScanHeaders hdrsTwoStrong).securityScore = 28
  ∧ (ScanHeaders []).securityScore ≤ (ScanHeaders hdrsTwoStrong).securityScore :=
  ⟨(headerScore_spec [] hdrsTwoStrong).2.2.2.1 (by decide),
   (headerScore_spec hdrsTwoStrong []).2.2.2.2 (by decide),
   (headerScore_spec [] hdrsTwoStrong).2.1 (by decide)⟩

/-- C4 counterexample: at exactly 2 strong headers of 7 the code computes 28
(truncating division), while round(100·2/7) = 29 — so the claimed equality
`score = round(100 * countPresentStrong / 7)` fails at this input. -/
theorem headerScore_round_counterexample :
    strongCount hdrsTwoStrong = 2
  ∧ ((ScanHeaders hdrsTwoStrong).securityScore : ℤ) = 28
  ∧ round ((100 * (strongCount hdrsTwoStrong : ℚ)) / 7) = 29 := by
  refine ⟨by decide, by decide, ?_⟩
  have h : strongCount hdrsTwoStrong = 2 := by decide
  rw [h]
  rw [round_eq]
  rw [show (100 * ((2:ℕ) : ℚ)) / 7 + 1/2 = 407/14 by norm_num]
  rw [Int.floor_eq_iff]
  constructor <;> norm_num

/-! ## C7: TLS score clamping -/

set_option maxHeartbeats 1000000 in
/-- C7: for every completed handshake the TLS score lies in [0,100]
(deductions clamped at 0); and a TLS 1.0 handshake with the CBC-mode suite
TLS_RSA_WITH_AES_128_CBC_SHA on an expired leaf certificate accumulates the
50 + 30 + 20 deductions, yielding IsSecure = false and score 0 (whatever the
extra probe results contribute). -/
theorem tlsScore_bounds (version cipher : Nat) (cert : Option PeerCert)
    (extraVulns : List String) (iss subj : String) (vf vt de : Int)
    (extraVulns₂ : List String) :
    (0 ≤ (scanTLSBody version cipher cert extraVulns).score
      ∧ (scanTLSBody version cipher cert extraVulns).score ≤ 100)
  ∧ ((scanTLSBody VersionTLS10 0x002f
        (some { issuer := iss, subject := subj, validFrom := vf, validTo := vt,
                isExpired := true, daysToExpiry := de }) extraVulns₂).score = 0
      ∧ (scanTLSBody VersionTLS10 0x002f
          (some { issuer := iss, subject := subj, validFrom := vf, validTo := vt,
                  isExpired := true, daysToExpiry := de }) extraVulns₂).isSecure = false) := by
  constructor
  · unfold scanTLSBody
    simp only []
    cases cert with
    | none =>
        by_cases h1 : version < VersionTLS12 <;>
        by_cases h2 : version = VersionTLS12 <;>
        by_cases h3 : isWeakCipher cipher = true <;>
        by_cases h4 : extraVulns.length > 0 <;>
        simp only [h1, h2, h3, h4, if_true, if_false, ite_true, ite_false,
          Bool.not_eq_true] at * <;>
        simp [h3] <;>
        split <;> simp <;> omega
    | some c =>
        cases hE : c.isExpired <;>
        by_cases hD : c.daysToExpiry < 30 <;>
        by_cases h1 : version < VersionTLS12 <;>
        by_cases h2 : version = VersionTLS12 <;>
        by_cases h3 : isWeakCipher cipher = true <;>
        by_cases h4 : extraVulns.length > 0 <;>
        simp only [hE, hD, h1, h2, h3, h4, if_true, if_false, ite_true, ite_false,
          Bool.not_eq_true] at * <;>
        simp [h3, hD] <;>
        split <;> simp <;> omega
  · by_cases hL : extraVulns₂.length > 0 <;>
    simp [scanTLSBody, isWeakCipher, VersionTLS10, VersionTLS12, hL]

/-! ## C9: non-HTTPS targets -/

/-- C9: for every target whose scheme is not https, the TLS analyzer performs
no handshake (the result does not depend on the `handshake` argument) and
returns a not-secure result with score 0 and no error. -/
theorem scanTLS_non_https (target : TargetInfo) (handshake : Except String HandshakeResult)
    (h : target.protocol ≠ "https") :
    ScanTLS target handshake =
      .ok { protocol := "", cipherSuite := "", certificate := zeroCertificate,
            vulnerabilities := ["Target is not using HTTPS"],
            score := 0, isSecure := false } := by
  unfold ScanTLS
  rw [if_pos h]

/-- C9 witness: an http target with a failed-handshake oracle still yields the
no-op not-secure result with no error. -/
theorem scanTLS_non_https_witness :
    ScanTLS { url := "http://example.com", domain := "example.com",
              ip := "93.184.216.34", protocol := "http", port := 80 }
      (.error "unreachable") =
      .ok { protocol := "", cipherSuite := "", certificate := zeroCertificate,
            vulnerabilities := ["Target is not using HTTPS"],
            score := 0, isSecure := false } :=
  scanTLS_non_https _ _ (by decide)

/-! ## SQLi analyzer lemmas -/

theorem strAppend_left_cancel {s a b : String} (h : s ++ a = s ++ b) : a = b := by
  have hd : (s ++ a).data = (s ++ b).data := by rw [h]
  simp only [String.data_append] at hd
  have h2 := List.append_cancel_left hd
  cases a; cases b
  exact congrArg String.mk h2

theorem urlPath_ne_param (p : String) : "URL Path" ≠ "Parameter: " ++ p := by
  intro h
  have hlen := congrArg String.length h
  rw [String.length_append] at hlen
  have h8 : ("URL Path" : String).length = 8 := rfl
  have h11 : ("Parameter: " : String).length = 11 := rfl
  omega

theorem sqliCheckPayload_location {bs bl : Nat} {p pay desc : String} {resp : Resp}
    {v : Vulnerability} (h : sqliCheckPayload bs bl p pay desc resp = some v) :
    v.location = "Parameter: " ++ p := by
  unfold sqliCheckPayload at h
  simp only [] at h
  split_ifs at h with h1 h2
  · simp only [Option.some.injEq] at h
    subst h; rfl
  · simp only [Option.some.injEq] at h
    subst h; rfl

theorem sqliCheckPayload_sig (bs bl : Nat) (p pay desc : String) (resp : Resp)
    (hsig : detectSQLError (strToLower resp.body) ≠ "") :
    sqliCheckPayload bs bl p pay desc resp =
      some { vtype := "sqli", severity := "critical",
             location := "Parameter: " ++ p, payload := pay,
             evidence := "SQL error detected: " ++ detectSQLError (strToLower resp.body),
             description := desc ++ " - SQL error exposed" } := by
  unfold sqliCheckPayload
  simp only []
  rw [if_pos hsig]

theorem scanParamSQLi_length_le (bs bl : Nat) (p : String) (respond : String → Option Resp)
    (payloads : List (String × String)) :
    (scanParamSQLi bs bl p respond payloads).1.length ≤ 1 := by
  induction payloads with
  | nil => simp [scanParamSQLi]
  | cons q rest ih =>
      obtain ⟨pay, desc⟩ := q
      cases hr : respond pay with
      | none => simpa [scanParamSQLi, hr] using ih
      | some resp =>
          cases hc : sqliCheckPayload bs bl p pay desc resp with
          | none => simpa [scanParamSQLi, hr, hc] using ih
          | some v => simp [scanParamSQLi, hr, hc]

theorem scanParamSQLi_locations (bs bl : Nat) (p : String) (respond : String → Option Resp)
    (payloads : List (String × String)) :
    ∀ v ∈ (scanParamSQLi bs bl p respond payloads).1, v.location = "Parameter: " ++ p := by
  induction payloads with
  | nil => simp [scanParamSQLi]
  | cons q rest ih =>
      obtain ⟨pay, desc⟩ := q
      intro v hv
      cases hr : respond pay with
      | none =>
          simp only [scanParamSQLi, hr] at hv
          exact ih v hv
      | some resp =>
          cases hc : sqliCheckPayload bs bl p pay desc resp with
          | none =>
              simp only [scanParamSQLi, hr, hc] at hv
              exact ih v hv
          | some w =>
              simp only [scanParamSQLi, hr, hc, List.mem_singleton] at hv
              subst hv
              exact sqliCheckPayload_location hc

theorem scanParamSQLi_first (bs bl : Nat) (p : String) (respond : String → Option Resp)
    (pre post : List (String × String)) (pay desc : String) (resp : Resp)
    (hpre : ∀ q ∈ pre, payloadOutcome bs bl p respond q.1 q.2 = none)
    (hresp : respond pay = some resp)
    (hsig : detectSQLError (strToLower resp.body) ≠ "") :
    scanParamSQLi bs bl p respond (pre ++ (pay, desc) :: post) =
      ([{ vtype := "sqli", severity := "critical",
          location := "Parameter: " ++ p, payload := pay,
          evidence := "SQL error detected: " ++ detectSQLError (strToLower resp.body),
          description := desc ++ " - SQL error exposed" }],
        pre.map (fun q => q.1) ++ [pay]) := by
  induction pre with
  | nil =>
      simp only [List.nil_append, List.map_nil]
      simp [scanParamSQLi, hresp, sqliCheckPayload_sig bs bl p pay desc resp hsig]
  | cons q pre ih =>
      obtain ⟨qp, qd⟩ := q
      have hq : payloadOutcome bs bl p respond qp qd = none := hpre (qp, qd) (by simp)
      have hpre₂ : ∀ r ∈ pre, payloadOutcome bs bl p respond r.1 r.2 = none :=
        fun r hr => hpre r (by simp [hr])
      unfold payloadOutcome at hq
      cases hr : respond qp with
      | none => simp [scanParamSQLi, hr, ih hpre₂]
      | some resp₂ =>
          simp only [hr] at hq
          simp [scanParamSQLi, hr, hq, ih hpre₂]

theorem testPathInjection_locations (respond : String → Option Resp) (l : List String) :
    ∀ v ∈ testPathInjection respond l, v.location = "URL Path" := by
  induction l with
  | nil => simp [testPathInjection]
  | cons payload rest ih =>
      intro v hv
      cases hr : respond payload with
      | none =>
          simp only [testPathInjection, hr] at hv
          exact ih v hv
      | some resp =>
          by_cases hs : detectSQLError (strToLower resp.body) ≠ ""
          · simp only [testPathInjection, hr, if_pos hs, List.mem_singleton] at hv
            subst hv; rfl
          · simp only [testPathInjection, hr, if_neg hs] at hv
            exact ih v hv

theorem findingsForParam_scanParam_self (bs bl : Nat) (p : String)
    (respond : String → Option Resp) (payloads : List (String × String)) :
    findingsForParam p (scanParamSQLi bs bl p respond payloads).1 =
      (scanParamSQLi bs bl p respond payloads).1 := by
  unfold findingsForParam
  rw [List.filter_eq_self]
  intro v hv
  simp [scanParamSQLi_locations bs bl p respond payloads v hv]

theorem findingsForParam_scanParam_other (bs bl : Nat) (q p : String)
    (respond : String → Option Resp) (payloads : List (String × String)) (hne : q ≠ p) :
    findingsForParam p (scanParamSQLi bs bl q respond payloads).1 = [] := by
  unfold findingsForParam
  rw [List.filter_eq_nil_iff]
  intro v hv
  have hloc := scanParamSQLi_locations bs bl q respond payloads v hv
  simp only [hloc, beq_iff_eq]
  intro heq
  exact hne (strAppend_left_cancel heq)

theorem findingsForParam_path (respond : String → Option Resp) (l : List String) (p : String) :
    findingsForParam p (testPathInjection respond l) = [] := by
  unfold findingsForParam
  rw [List.filter_eq_nil_iff]
  intro v hv
  have hloc := testPathInjection_locations respond l v hv
  simp only [hloc, beq_iff_eq]
  exact urlPath_ne_param p

theorem foldl_append_eq_flatMap {α β : Type} (f : α → List β) (l : List α) (init : List β) :
    l.foldl (fun acc a => acc ++ f a) init = init ++ l.flatMap f := by
  induction l generalizing init with
  | nil => simp
  | cons a l ih => simp [ih]

theorem ScanSQLi_eq (bs bl : Nat) (params : List String)
    (respond : String → String → Option Resp) (pathProbe : Option (String → Option Resp)) :
    ScanSQLi bs bl params respond pathProbe =
      (params.flatMap fun q => (scanParamSQLi bs bl q (respond q) sqliPayloads).1) ++
        (match pathProbe with
         | none => []
         | some pr => testPathInjection pr pathPayloads) := by
  unfold ScanSQLi
  simp only []
  rw [foldl_append_eq_flatMap]
  cases pathProbe <;> simp

theorem findingsForParam_append (p : String) (a b : List Vulnerability) :
    findingsForParam p (a ++ b) = findingsForParam p a ++ findingsForParam p b := by
  simp [findingsForParam]

theorem findingsForParam_ScanSQLi (bs bl : Nat) (params : List String)
    (respond : String → String → Option Resp) (pathProbe : Option (String → Option Resp))
    (p : String) (hnd : params.Nodup) (hp : p ∈ params) :
    findingsForParam p (ScanSQLi bs bl params respond pathProbe) =
      (scanParamSQLi bs bl p (respond p) sqliPayloads).1 := by
  rw [ScanSQLi_eq, findingsForParam_append]
  have hpath : findingsForParam p
      (match pathProbe with
       | none => []
       | some pr => testPathInjection pr pathPayloads) = [] := by
    cases pathProbe with
    | none => simp [findingsForParam]
    | some pr => exact findingsForParam_path pr pathPayloads p
  rw [hpath, List.append_nil]
  induction params with
  | nil => cases hp
  | cons q params ih =>
      rw [List.flatMap_cons, findingsForParam_append]
      rcases List.mem_cons.mp hp with rfl | hp₂
      · rw [findingsForParam_scanParam_self]
        have hrest : findingsForParam p
            (params.flatMap fun r => (scanParamSQLi bs bl r (respond r) sqliPayloads).1) = [] := by
          unfold findingsForParam
          rw [List.filter_eq_nil_iff]
          intro v hv
          rcases List.mem_flatMap.mp hv with ⟨r, hr, hvr⟩
          have hloc := scanParamSQLi_locations bs bl r (respond r) sqliPayloads v hvr
          simp only [hloc, beq_iff_eq]
          intro heq
          have hrp : r = p := strAppend_left_cancel heq
          subst hrp
          exact (List.nodup_cons.mp hnd).1 hr
        rw [hrest, List.append_nil]
      · have hqp : q ≠ p := by
          intro h
          subst h
          exact (List.nodup_cons.mp hnd).1 hp₂
        rw [findingsForParam_scanParam_other bs bl q p (respond q) sqliPayloads hqp]
        rw [List.nil_append]
        exact ih (List.nodup_cons.mp hnd).2 hp₂

/-! ## C5: at most one SQLi finding per parameter, first-match short-circuit -/

/-- C5: for every query parameter tested by the SQLi analyzer at most one
vulnerability is attributed to that parameter; and if the payloads before
`pay` produced no finding and `pay`'s response body carries a database-error
signature, exactly one critical finding is emitted for the parameter and no
payload after `pay` is sent (the tested-payload list stops at `pay`). -/
theorem sqli_one_finding_per_param (bs bl : Nat) (params : List String)
    (respond : String → String → Option Resp) (pathProbe : Option (String → Option Resp))
    (p : String) (hnd : params.Nodup) (hp : p ∈ params) :
    (findingsForParam p (ScanSQLi bs bl params respond pathProbe)).length ≤ 1
  ∧ ∀ (pre post : List (String × String)) (pay desc : String) (resp : Resp),
      sqliPayloads = pre ++ (pay, desc) :: post →
      (∀ q ∈ pre, payloadOutcome bs bl p (respond p) q.1 q.2 = none) →
      respond p pay = some resp →
      detectSQLError (strToLower resp.body) ≠ "" →
      findingsForParam p (ScanSQLi bs bl params respond pathProbe) =
          [{ vtype := "sqli", severity := "critical",
             location := "Parameter: " ++ p, payload := pay,
             evidence := "SQL error detected: " ++ detectSQLError (strToLower resp.body),
             description := desc ++ " - SQL error exposed" }]
        ∧ (scanParamSQLi bs bl p (respond p) sqliPayloads).2 = pre.map (fun q => q.1) ++ [pay] := by
  constructor
  · rw [findingsForParam_ScanSQLi bs bl params respond pathProbe p hnd hp]
    exact scanParamSQLi_length_le bs bl p (respond p) sqliPayloads
  · intro pre post pay desc resp hdec hpre hresp hsig
    have hfirst := scanParamSQLi_first bs bl p (respond p) pre post pay desc resp hpre hresp hsig
    constructor
    · rw [findingsForParam_ScanSQLi bs bl params respond pathProbe p hnd hp, hdec, hfirst]
    · rw [hdec, hfirst]

/-- C5 witness: against `sqliOracle`, parameter `id` yields exactly the one
critical finding for the first payload and only that payload is sent. -/
theorem sqli_one_finding_per_param_witness :
    findingsForParam "id" (ScanSQLi 200 2 ["id"] sqliOracle none) =
        [{ vtype := "sqli", severity := "critical", location := "Parameter: id",
           payload := "\x27", evidence := "SQL error detected: sql syntax",
           description := "Single quote test - SQL error exposed" }]
      ∧ (scanParamSQLi 200 2 "id" (sqliOracle "id") sqliPayloads).2 = ["\x27"] := by
  have h := (sqli_one_finding_per_param 200 2 ["id"] sqliOracle none "id"
      (by decide) (by decide)).2
    [] sqliPayloads.tail "\x27" "Single quote test"
    { status := 200, body := "You have an error in your SQL syntax" }
    rfl (by simp) (by decide) (by decide)
  constructor
  · rw [h.1]
    decide
  · rw [h.2]
    decide

/-! ## C8: the behavior-change heuristic -/

theorem detectBehaviorChange_iff (bs ts bl tl : Nat) (hbl : 0 < bl) :
    detectBehaviorChange bs ts bl tl = true ↔
      (ts ≠ bs ∨ ((tl : ℚ) - (bl : ℚ)) / (bl : ℚ) > 1/10 ∨
        ((tl : ℚ) - (bl : ℚ)) / (bl : ℚ) < -(1/10)) := by
  unfold detectBehaviorChange
  simp only []
  by_cases hs : bs ≠ ts
  · rw [if_pos hs]
    simp [Ne.symm hs]
  · rw [if_neg hs]
    rw [if_neg (by omega : ¬ bl = 0)]
    push_neg at hs
    simp [hs]

/-- C8: for a payload response without a database-error signature, a
high-severity finding is emitted if and only if the response status code
differs from the baseline status code or the body length differs from the
baseline length by more than 10% in either direction. -/
theorem sqli_behavior_change_iff (bs bl : Nat) (p pay desc : String) (resp : Resp)
    (hsig : detectSQLError (strToLower resp.body) = "") (hbl : 0 < bl) :
    (∃ v, sqliCheckPayload bs bl p pay desc resp = some v ∧ v.severity = "high") ↔
      (resp.status ≠ bs ∨
        ((resp.body.utf8ByteSize : ℚ) - (bl : ℚ)) / (bl : ℚ) > 1/10 ∨
        ((resp.body.utf8ByteSize : ℚ) - (bl : ℚ)) / (bl : ℚ) < -(1/10)) := by
  rw [← detectBehaviorChange_iff bs resp.status bl resp.body.utf8ByteSize hbl]
  unfold sqliCheckPayload
  simp only []
  rw [if_neg (by simp [hsig])]
  by_cases hd : detectBehaviorChange bs resp.status bl resp.body.utf8ByteSize = true
  · rw [if_pos hd]
    simp [hd]
  · rw [if_neg hd]
    simp [hd]

/-- C8 witness: a response four times the baseline length (300% longer) with
the same status code and no error signature is flagged high. -/
theorem sqli_behavior_change_iff_witness :
    ∃ v, sqliCheckPayload 200 10 "id" "x" "d" respLong = some v ∧ v.severity = "high" := by
  apply (sqli_behavior_change_iff 200 10 "id" "x" "d" respLong (by decide) (by decide)).mpr
  right; left
  have h40 : respLong.body.utf8ByteSize = 40 := by decide
  rw [h40]
  norm_num

/-! ## C6: XSS reflection -/

theorem xssCheckPayload_high (p payload pattern desc : String) (resp : Resp)
    (h : containsSubstr (strToLower resp.body) pattern = true) :
    xssCheckPayload p payload pattern desc resp =
      some { vtype := "xss", severity := "high",
             location := "Parameter: " ++ p, payload := payload,
             evidence := "Payload reflected unescaped in response",
             description := desc ++ " - Payload found in response without proper encoding" } := by
  unfold xssCheckPayload
  simp only []
  rw [if_pos h]

/-- C6 (amended): a response whose lowercased body contains the lowercased
payload verbatim yields a high finding for that parameter (each configured
pattern is exactly the lowercased payload); a handler that HTML-entity-encodes
the reflected value yields no high finding, but the partial-reflection
heuristic still emits exactly one medium finding for the parameter, because
the residual substrings "alert"/"xss" survive entity encoding. -/
theorem xss_reflection (p payload pattern desc : String) (resp : Resp)
    (hmem : (payload, pattern, desc) ∈ xssPayloads)
    (hrefl : containsSubstr (strToLower resp.body) (strToLower payload) = true) :
    (∃ v, xssCheckPayload p payload pattern desc resp = some v ∧ v.severity = "high")
  ∧ (scanParamXSS "q" xssEncodingOracle xssPayloads).1.map (fun v => v.severity) =
      ["medium"] := by
  have hpat : pattern = strToLower payload := by
    have hall : xssPayloads.all (fun q => q.2.1 == strToLower q.1) = true := by decide
    rw [List.all_eq_true] at hall
    have hq := hall (payload, pattern, desc) hmem
    simpa [beq_iff_eq] using hq
  constructor
  · exact ⟨_, xssCheckPayload_high p payload pattern desc resp (by rw [hpat]; exact hrefl),
      rfl⟩
  · set_option maxRecDepth 10000 in decide

/-- C6 witness: verbatim reflection of the first payload yields a high
finding. -/
theorem xss_reflection_witness :
    ∃ v, xssCheckPayload "q" "<script>alert(\x27XSS\x27)</script>"
        "<script>alert(\x27xss\x27)</script>" "Basic script injection"
        { status := 200, body := "Search results for: <script>alert(\x27XSS\x27)</script>" } =
      some v ∧ v.severity = "high" :=
  (xss_reflection "q" "<script>alert(\x27XSS\x27)</script>"
    "<script>alert(\x27xss\x27)</script>" "Basic script injection"
    { status := 200, body := "Search results for: <script>alert(\x27XSS\x27)</script>" }
    (by decide) (by decide)).1

/-- C6 counterexample: a handler that HTML-entity-encodes the reflected value
still triggers a finding (the medium partial-reflection finding) for the
parameter — the claim that it yields no finding is false. -/
theorem xss_encoded_counterexample :
    (scanParamXSS "q" xssEncodingOracle xssPayloads).1 ≠ [] := by
  set_option maxRecDepth 10000 in decide

/-! ## C1: the risk-level precedence cascade -/

theorem countVulnSeverities_eq (counts : Nat × Nat × Nat) (vulns : List Vulnerability) :
    countVulnSeverities counts vulns =
      (counts.1 + vulns.countP (fun v => v.severity == "critical"),
       counts.2.1 + vulns.countP (fun v => v.severity == "high"),
       counts.2.2 + vulns.countP (fun v => v.severity == "medium")) := by
  induction vulns generalizing counts with
  | nil => simp [countVulnSeverities]
  | cons v l ih =>
      obtain ⟨a, b, c⟩ := counts
      show countVulnSeverities _ l = _
      rw [ih]
      simp only [List.countP_cons]
      split_ifs with h1 h2 h3 <;> simp_all <;> omega

theorem countP_pair_pos_iff (sq xs : List Vulnerability) (s : String) :
    (0 < sq.countP (fun v => v.severity == s) + xs.countP (fun v => v.severity == s)) ↔
      ∃ v, (v ∈ sq ∨ v ∈ xs) ∧ v.severity = s := by
  rw [show (0 < sq.countP (fun v => v.severity == s) + xs.countP (fun v => v.severity == s)) ↔ (0 < sq.countP (fun v => v.severity == s) ∨ 0 < xs.countP (fun v => v.severity == s)) by omega]
  rw [List.countP_pos_iff, List.countP_pos_iff]
  constructor
  · rintro (⟨v, hv, hs⟩ | ⟨v, hv, hs⟩)
    · exact ⟨v, Or.inl hv, by simpa using hs⟩
    · exact ⟨v, Or.inr hv, by simpa using hs⟩
  · rintro ⟨v, hv | hv, hs⟩
    · exact Or.inl ⟨v, hv, by simpa using hs⟩
    · exact Or.inr ⟨v, hv, by simpa using hs⟩

theorem tlsBump_pos_iff (r : ScanResult) :
    (0 < (match r.tlsResults with
          | some t => if !t.isSecure then 1 else 0
          | none => 0)) ↔ TLSInsecure r := by
  unfold TLSInsecure
  cases htl : r.tlsResults with
  | none => simp
  | some t => cases ht : t.isSecure <;> simp [ht]

theorem headerBump_pos_iff (r : ScanResult) :
    (0 < (match r.headerResults with
          | some h => if h.securityScore < 50 then 1 else 0
          | none => 0)) ↔ HeaderScoreLow r := by
  unfold HeaderScoreLow
  cases hh : r.headerResults with
  | none => simp
  | some h => by_cases hs : h.securityScore < 50 <;> simp [hs]

/-- C1: the derived risk level is a strict precedence cascade: CRITICAL iff
some SQLi/XSS finding is critical; else HIGH iff some finding is high or the
TLS result is present and insecure; else MEDIUM iff some finding is medium or
the header result is present with score below 50; else LOW — regardless of
how many lower-severity findings exist. -/
theorem calculateRiskLevel_cascade (r : ScanResult) :
    (CalculateRiskLevel r = "CRITICAL" ↔ HasCriticalVuln r)
  ∧ (CalculateRiskLevel r = "HIGH" ↔
      (¬ HasCriticalVuln r ∧ (HasHighVuln r ∨ TLSInsecure r)))
  ∧ (CalculateRiskLevel r = "MEDIUM" ↔
      (¬ HasCriticalVuln r ∧ ¬ (HasHighVuln r ∨ TLSInsecure r) ∧
        (HasMediumVuln r ∨ HeaderScoreLow r)))
  ∧ (CalculateRiskLevel r = "LOW" ↔
      (¬ HasCriticalVuln r ∧ ¬ (HasHighVuln r ∨ TLSInsecure r) ∧
        ¬ (HasMediumVuln r ∨ HeaderScoreLow r))) := by
  have hA : (0 < r.sqliResults.countP (fun v => v.severity == "critical") +
      r.xssResults.countP (fun v => v.severity == "critical")) ↔ HasCriticalVuln r :=
    countP_pair_pos_iff r.sqliResults r.xssResults "critical"
  have hHv := countP_pair_pos_iff r.sqliResults r.xssResults "high"
  have hMv := countP_pair_pos_iff r.sqliResults r.xssResults "medium"
  have hT := tlsBump_pos_iff r
  have hHd := headerBump_pos_iff r
  unfold CalculateRiskLevel
  simp only []
  rw [countVulnSeverities_eq, countVulnSeverities_eq]
  simp only [Nat.zero_add, gt_iff_lt]
  set cc := r.sqliResults.countP (fun v => v.severity == "critical") +
    r.xssResults.countP (fun v => v.severity == "critical") with hcc
  set chv := r.sqliResults.countP (fun v => v.severity == "high") +
    r.xssResults.countP (fun v => v.severity == "high") with hchv
  set cmv := r.sqliResults.countP (fun v => v.severity == "medium") +
    r.xssResults.countP (fun v => v.severity == "medium") with hcmv
  set bT := (match r.tlsResults with
    | some t => if !t.isSecure then 1 else 0
    | none => 0 : Nat) with hbT
  set bH := (match r.headerResults with
    | some h => if h.securityScore < 50 then 1 else 0
    | none => 0 : Nat) with hbH
  have hB : (0 < chv + bT) ↔ (HasHighVuln r ∨ TLSInsecure r) := by
    constructor
    · intro h
      rcases (by omega : 0 < chv ∨ 0 < bT) with h1 | h1
      · exact Or.inl (hHv.mp h1)
      · exact Or.inr (hT.mp h1)
    · rintro (h1 | h1)
      · have := hHv.mpr h1; omega
      · have := hT.mpr h1; omega
  have hC : (0 < cmv + bH) ↔ (HasMediumVuln r ∨ HeaderScoreLow r) := by
    constructor
    · intro h
      rcases (by omega : 0 < cmv ∨ 0 < bH) with h1 | h1
      · exact Or.inl (hMv.mp h1)
      · exact Or.inr (hHd.mp h1)
    · rintro (h1 | h1)
      · have := hMv.mpr h1; omega
      · have := hHd.mpr h1; omega
  by_cases hc : 0 < cc
  · rw [if_pos hc]
    have hcp := hA.mp hc
    refine ⟨iff_of_true rfl hcp, iff_of_false (by decide) ?_, iff_of_false (by decide) ?_,
      iff_of_false (by decide) ?_⟩
    · rintro ⟨hn, -⟩; exact hn hcp
    · rintro ⟨hn, -⟩; exact hn hcp
    · rintro ⟨hn, -⟩; exact hn hcp
  · rw [if_neg hc]
    have hcn : ¬ HasCriticalVuln r := fun h => hc (hA.mpr h)
    by_cases hh : 0 < chv + bT
    · rw [if_pos hh]
      have hhp := hB.mp hh
      refine ⟨iff_of_false (by decide) hcn, iff_of_true rfl ⟨hcn, hhp⟩,
        iff_of_false (by decide) ?_, iff_of_false (by decide) ?_⟩
      · rintro ⟨-, hn, -⟩; exact hn hhp
      · rintro ⟨-, hn, -⟩; exact hn hhp
    · rw [if_neg hh]
      have hhn : ¬ (HasHighVuln r ∨ TLSInsecure r) := fun h => hh (hB.mpr h)
      by_cases hm : 0 < cmv + bH
      · rw [if_pos hm]
        have hmp := hC.mp hm
        refine ⟨iff_of_false (by decide) hcn, iff_of_false (by decide) ?_,
          iff_of_true rfl ⟨hcn, hhn, hmp⟩, iff_of_false (by decide) ?_⟩
        · rintro ⟨-, hn⟩; exact hhn hn
        · rintro ⟨-, -, hn⟩; exact hn hmp
      · rw [if_neg hm]
        have hmn : ¬ (HasMediumVuln r ∨ HeaderScoreLow r) := fun h => hm (hC.mpr h)
        exact ⟨iff_of_false (by decide) hcn, iff_of_false (by decide) (fun h => hhn h.2),
          iff_of_false (by decide) (fun h => hmn h.2.2), iff_of_true rfl ⟨hcn, hhn, hmn⟩⟩

/-! ## C2 and C10: the orchestrator -/

theorem foldl_applyWrite_errors (out : ScanOutcomes) (r : ScanResult)
    (completed : List ScanUnit) :
    (completed.foldl (applyWrite out) r).errors =
      r.errors ++ completed.filterMap (unitError out) := by
  induction completed generalizing r with
  | nil => simp
  | cons u l ih =>
      rw [List.foldl_cons, List.filterMap_cons]
      cases u with
      | headers => cases h : out.headers <;> simp [applyWrite, unitError, h, ih]
      | tls => cases h : out.tls <;> simp [applyWrite, unitError, h, ih]
      | sqli => cases h : out.sqli <;> simp [applyWrite, unitError, h, ih]
      | xss => cases h : out.xss <;> simp [applyWrite, unitError, h, ih]
      | nmap => cases h : out.nmap <;> simp [applyWrite, unitError, h, ih]

theorem applyWrite_preserves_zero (out : ScanOutcomes) (u w : ScanUnit) (e : String)
    (hu : unitError out u = some e) (r : ScanResult) (hz : fieldIsZero r u) :
    fieldIsZero (applyWrite out r w) u := by
  obtain ⟨oh, ot, osq, ox, onm⟩ := out
  cases oh <;> cases ot <;> cases osq <;> cases ox <;> cases onm <;>
    cases u <;> cases w <;> simp_all [unitError, applyWrite, fieldIsZero]

theorem applyWrite_preserves_populated (out : ScanOutcomes) (u w : ScanUnit)
    (r : ScanResult) (hp : fieldPopulated out r u) :
    fieldPopulated out (applyWrite out r w) u := by
  obtain ⟨oh, ot, osq, ox, onm⟩ := out
  cases oh <;> cases ot <;> cases osq <;> cases ox <;> cases onm <;>
    cases u <;> cases w <;> simp_all [applyWrite, fieldPopulated]

theorem applyWrite_self_populated (out : ScanOutcomes) (u : ScanUnit) (r : ScanResult) :
    fieldPopulated out (applyWrite out r u) u := by
  obtain ⟨oh, ot, osq, ox, onm⟩ := out
  cases oh <;> cases ot <;> cases osq <;> cases ox <;> cases onm <;>
    cases u <;> simp_all [applyWrite, fieldPopulated]

theorem foldl_preserves_zero (out : ScanOutcomes) (u : ScanUnit) (e : String)
    (hu : unitError out u = some e) (completed : List ScanUnit) (r : ScanResult)
    (hz : fieldIsZero r u) :
    fieldIsZero (completed.foldl (applyWrite out) r) u := by
  induction completed generalizing r with
  | nil => exact hz
  | cons w l ih => exact ih _ (applyWrite_preserves_zero out u w e hu r hz)

theorem foldl_preserves_populated (out : ScanOutcomes) (u : ScanUnit)
    (l : List ScanUnit) (r : ScanResult) (hp : fieldPopulated out r u) :
    fieldPopulated out (l.foldl (applyWrite out) r) u := by
  induction l generalizing r with
  | nil => exact hp
  | cons w l ih => exact ih _ (applyWrite_preserves_populated out u w r hp)

theorem foldl_populated (out : ScanOutcomes) (u : ScanUnit) (completed : List ScanUnit)
    (r : ScanResult) (hmem : u ∈ completed) :
    fieldPopulated out (completed.foldl (applyWrite out) r) u := by
  induction completed generalizing r with
  | nil => cases hmem
  | cons w l ih =>
      rw [List.foldl_cons]
      rcases List.mem_cons.mp hmem with rfl | hm
      · exact foldl_preserves_populated out u l _ (applyWrite_self_populated out u r)
      · exact ih _ hm

theorem RunSecurityScan_errors (target : TargetInfo) (st et : Int) (out : ScanOutcomes)
    (completed : List ScanUnit) (timedOut : Bool) :
    (RunSecurityScan target st et out completed timedOut).1.errors =
      completed.filterMap (unitError out) ++
        (if timedOut = true then ["scan timeout exceeded"] else []) := by
  unfold RunSecurityScan
  cases timedOut <;>
    simp [foldl_applyWrite_errors, initResult]

theorem RunSecurityScan_fieldIsZero_iff (target : TargetInfo) (st et : Int)
    (out : ScanOutcomes) (completed : List ScanUnit) (timedOut : Bool) (u : ScanUnit) :
    (fieldIsZero (RunSecurityScan target st et out completed timedOut).1 u ↔
      fieldIsZero (completed.foldl (applyWrite out) (initResult target st)) u) := by
  unfold RunSecurityScan
  cases timedOut <;> cases u <;> simp [fieldIsZero]

theorem RunSecurityScan_fieldPopulated_iff (target : TargetInfo) (st et : Int)
    (out : ScanOutcomes) (completed : List ScanUnit) (timedOut : Bool) (u : ScanUnit) :
    (fieldPopulated out (RunSecurityScan target st et out completed timedOut).1 u ↔
      fieldPopulated out (completed.foldl (applyWrite out) (initResult target st)) u) := by
  unfold RunSecurityScan
  cases timedOut <;> cases u <;> simp [fieldPopulated]



/-- C2: for every target and every option set, `RunSecurityScan` returns a
result and a nil error: a failed analyzer contributes its message to
`result.Errors` with its result field left at the zero value, successful
outputs already written are kept, and when the deadline elapses the synthetic
"scan timeout exceeded" error is appended last — no failure or timeout is
ever propagated as the returned error. -/
theorem runSecurityScan_contract (target : TargetInfo) (st et : Int) (out : ScanOutcomes)
    (completed : List ScanUnit) (timedOut : Bool) (o : ScanOptions) (nmapInstalled : Bool)
    (hsub : ∀ u ∈ completed, u ∈ enabledUnits o nmapInstalled) :
    ((RunSecurityScan target st et out completed timedOut).2 = none)
  ∧ (∀ u ∈ completed, ∀ e, unitError out u = some e →
      e ∈ (RunSecurityScan target st et out completed timedOut).1.errors
      ∧ fieldIsZero (RunSecurityScan target st et out completed timedOut).1 u)
  ∧ (∀ u ∈ completed,
      fieldPopulated out (RunSecurityScan target st et out completed timedOut).1 u)
  ∧ (timedOut = true →
      (RunSecurityScan target st et out completed timedOut).1.errors.getLast? =
        some "scan timeout exceeded")
  ∧ (timedOut = false →
      (RunSecurityScan target st et out completed timedOut).1.errors =
        completed.filterMap (unitError out)) := by
  refine ⟨rfl, ?_, ?_, ?_, ?_⟩
  · intro u hu e he
    constructor
    · rw [RunSecurityScan_errors]
      exact List.mem_append_left _ (List.mem_filterMap.mpr ⟨u, hu, he⟩)
    · rw [RunSecurityScan_fieldIsZero_iff]
      refine foldl_preserves_zero out u e he completed _ ?_
      cases u <;> simp [fieldIsZero, initResult]
  · intro u hu
    rw [RunSecurityScan_fieldPopulated_iff]
    exact foldl_populated out u completed _ hu
  · intro ht
    rw [RunSecurityScan_errors, ht, if_pos rfl]
    exact List.getLast?_concat _
  · intro ht
    rw [RunSecurityScan_errors, ht]
    simp


/-- C2 witness: a concrete timed-out scan with a failed headers analyzer
keeps the partial outputs, records the connection error, leaves the header
field nil and appends the timeout error last. -/
theorem runSecurityScan_contract_witness :
    ((RunSecurityScan tgt0 0 5 out0 allUnits true).2 = none)
  ∧ "failed to connect: no route to host" ∈
      (RunSecurityScan tgt0 0 5 out0 allUnits true).1.errors
  ∧ (RunSecurityScan tgt0 0 5 out0 allUnits true).1.headerResults = none
  ∧ (RunSecurityScan tgt0 0 5 out0 allUnits true).1.errors.getLast? =
      some "scan timeout exceeded" := by
  have h := runSecurityScan_contract tgt0 0 5 out0 allUnits true allScanOptions true (by decide)
  refine ⟨h.1, ?_, ?_, h.2.2.2.1 rfl⟩
  · exact (h.2.1 ScanUnit.headers (by decide) "failed to connect: no route to host" rfl).1
  · exact (h.2.1 ScanUnit.headers (by decide) "failed to connect: no route to host" rfl).2

/-- C10: with every scan category disabled (all skip flags set and the nmap
binary absent), no unit is launched, so the completed set is empty and the
result is well-formed: empty error list, all sub-result fields at their zero
values, risk level LOW, nil returned error — and the progress-percentage list
is empty, so the expression dividing by the zero launch-time scan count is
never evaluated. -/
theorem runSecurityScan_all_disabled (target : TargetInfo) (st et : Int)
    (out : ScanOutcomes) (completed : List ScanUnit)
    (hsub : ∀ u ∈ completed, u ∈ enabledUnits allSkipOptions false) :
    enabledUnits allSkipOptions false = []
  ∧ completed = []
  ∧ RunSecurityScan target st et out completed false =
      ({ target := target, startTime := st, endTime := et,
         nmapResults := none, headerResults := none, tlsResults := none,
         sqliResults := [], xssResults := [], errors := [], riskLevel := "LOW" }, none)
  ∧ progressPercents (enabledUnits allSkipOptions false).length completed = [] := by
  have henb : enabledUnits allSkipOptions false = [] := rfl
  have hcomp : completed = [] := by
    cases completed with
    | nil => rfl
    | cons u l =>
        have hmem := hsub u (by simp)
        rw [henb] at hmem
        cases hmem
  subst hcomp
  exact ⟨henb, rfl, rfl, rfl⟩

/-- C10 witness: the all-disabled scenario evaluated at a concrete target. -/
theorem runSecurityScan_all_disabled_witness :
    RunSecurityScan tgt0 0 5 out0 [] false =
      ({ target := tgt0, startTime := 0, endTime := 5,
         nmapResults := none, headerResults := none, tlsResults := none,
         sqliResults := [], xssResults := [], errors := [], riskLevel := "LOW" }, none)
  ∧ progressPercents (enabledUnits allSkipOptions false).length [] = [] :=
  ⟨(runSecurityScan_all_disabled tgt0 0 5 out0 [] (by simp)).2.2.1,
   (runSecurityScan_all_disabled tgt0 0 5 out0 [] (by simp)).2.2.2⟩


end AutoSecScan
